import Mathlib

set_option maxRecDepth 4000

/-!
Shallow embedding of the Azure provisioning script in src/script.py.

The script is a sequential orchestrator: every operation is a call into a
cloud-provider SDK.  The embedding models the provider as an explicit world
state (which resources exist) plus stub oracles for the parts whose answers
the script cannot determine (read-after-write visibility of a freshly
created resource, the list of VM sizes in a region, the response to a
storage-account create, the random draws of the name generator).  Each
Python function becomes a Lean function returning the updated world, the
list of provider calls it issued, and an outcome that is either success or
the Python exception that propagated out of the function.
-/

/-- Python exceptions that appear in the script.  A generic Exception
raised with a message is modelled by `exc`. -/
inductive PyError where
  | resourceNotFound
  | resourceExists
  | httpResponse (msg : String)
  | nameError (n : String)
  | valueError (msg : String)
  | exc (msg : String)
deriving DecidableEq

deriving instance DecidableEq for Except

/-- The provider calls the script can issue, one constructor per distinct
SDK entry point used in src/script.py. -/
inductive PCall where
  | groupCheckExistence
  | groupCreate
  | vnetCreate
  | subnetCreate
  | publicIpCreate
  | publicIpGet
  | subnetGet
  | nicCreate
  | vmSizesList
  | vmCreate
  | vmGet
  | sqlServerCreate
  | sqlServerGet
  | sqlDbCreate
  | storageCreate
  | vmStart
  | vmPowerOff
  | vmDelete
deriving DecidableEq

/-- The cloud resources the script manages. -/
inductive Res where
  | group
  | vnet
  | subnet
  | publicIp
  | nic
  | vm
  | sqlServer
  | sqlDb
  | storage
deriving DecidableEq

/-- Which resource a provider call reads (existence check or get); `none`
for calls that are not reads.  The script issues no read of the virtual
network, the network interface, the SQL database or the storage account. -/
def queryTarget : PCall → Option Res
  | .groupCheckExistence => some .group
  | .publicIpGet => some .publicIp
  | .subnetGet => some .subnet
  | .vmGet => some .vm
  | .sqlServerGet => some .sqlServer
  | _ => none

/-- The names bound at module level by the import statements of
src/script.py (lines 1-20).  The module `time` is not among them, although
`time.sleep` is used in the three verification polling loops. -/
def module_imports : List String :=
  ["os", "logging", "DefaultAzureCredential", "ResourceManagementClient",
   "ComputeManagementClient", "SqlManagementClient", "StorageManagementClient",
   "Server", "Database", "VirtualMachine", "HardwareProfile", "StorageProfile",
   "OSDisk", "ImageReference", "OSProfile", "NetworkProfile",
   "NetworkInterfaceReference", "DiskCreateOptionTypes",
   "StorageAccountCreateParameters", "Sku", "Kind", "ResourceExistsError",
   "ResourceNotFoundError", "HttpResponseError", "NetworkManagementClient",
   "NetworkSecurityGroup", "SecurityRule", "VirtualNetwork", "Subnet",
   "PublicIPAddress", "NetworkInterface", "NetworkInterfaceIPConfiguration",
   "random", "string"]

/-- Whether the name `time` is bound when the polling loops evaluate
`time.sleep(5)`; evaluating it unbound raises a Python NameError. -/
def time_is_imported : Bool := module_imports.contains "time"

/-- Configuration constants of the script (lines 40-49). -/
def RESOURCE_GROUP_NAME : String := "MyResourceGroup"

def LOCATION : String := "centralus"

def VM_NAME : String := "MyVM"

def STORAGE_ACCOUNT_NAME : String := "mystorageacct"

def SQL_SERVER_NAME : String := "myserver"

def SQL_DB_NAME : String := "mydatabase"

def VNET_NAME : String := "MyVNet"

def SUBNET_NAME : String := "MySubnet"

def IP_NAME : String := "MyPublicIP"

def NIC_NAME : String := "MyVMNIC"

/-- `subscription_id = os.getenv("AZURE_SUBSCRIPTION_ID") or "your_subscription_id"`
(line 28).  `env` is the value of the environment variable, `none` when
unset; Python `or` falls through on `None` and on the empty (falsy)
string. -/
def subscription_id (env : Option String) : String :=
  match env with
  | none => "your_subscription_id"
  | some s => if s = "" then "your_subscription_id" else s

/-- The startup check of lines 30-31: `if not subscription_id: raise
ValueError(...)`.  Returns the subscription id actually used when no error
is raised. -/
def startup_config_check (env : Option String) : Except PyError String :=
  let sid := subscription_id env
  if sid = "" then
    .error (.valueError "Azure subscription ID is not set. Please set the AZURE_SUBSCRIPTION_ID environment variable.")
  else
    .ok sid

/-- One verification polling loop of the script, lines 107-116, 221-230 and
262-271: `for _ in range(10): try: get(...); break; except
ResourceNotFoundError: log; time.sleep(5)` with a `for`-`else` that raises
a plain Exception carrying `timeoutMsg`.  `found k` is the provider answer
to the get issued on attempt `k` (0-based); `timeBound` says whether the
name `time` is bound (it is not in the script, so a not-found answer makes
`time.sleep` raise a NameError).  Returns the number of get calls issued
and the outcome. -/
def pollAux (timeBound : Bool) (timeoutMsg : String) (found : Nat → Bool) :
    Nat → Nat → Nat × Except PyError Unit
  | 0, k => (k, .error (.exc timeoutMsg))
  | fuel + 1, k =>
    if found k then (k + 1, .ok ())
    else if timeBound then pollAux timeBound timeoutMsg found fuel (k + 1)
    else (k + 1, .error (.nameError "time"))

/-- The polling loop with its fixed budget of 10 attempts. -/
def pollVerify (timeBound : Bool) (timeoutMsg : String) (found : Nat → Bool) :
    Nat × Except PyError Unit :=
  pollAux timeBound timeoutMsg found 10 0

/-- Provider-side state: which resources currently exist. -/
structure World where
  groupE : Bool
  vnetE : Bool
  subnetE : Bool
  ipE : Bool
  nicE : Bool
  vmE : Bool
  sqlServerE : Bool
  sqlDbE : Bool
  storageE : Bool
deriving DecidableEq

/-- The world in which none of the resources exist yet. -/
def allAbsent : World :=
  ⟨false, false, false, false, false, false, false, false, false⟩

/-- Result of one orchestrator step: updated world, provider calls issued,
and outcome. -/
abbrev StepResult := World × List PCall × Except PyError Unit

/-- `create_resource_group` (lines 51-68): check existence; create only
when absent.  Creates are modelled as always succeeding (the happy
provider); the claims about this function concern only its two branches. -/
def create_resource_group (w : World) : StepResult :=
  if w.groupE then
    (w, [.groupCheckExistence], .ok ())
  else
    ({ w with groupE := true }, [.groupCheckExistence, .groupCreate], .ok ())

/-- `create_virtual_network` (lines 70-92): vnet upsert then subnet upsert,
each blocking on `.result()`; no read of either resource afterwards. -/
def create_virtual_network (w : World) : StepResult :=
  let w1 := { w with vnetE := true }
  let w2 := { w1 with subnetE := true }
  (w2, [.vnetCreate, .subnetCreate], .ok ())

/-- `create_public_ip` (lines 94-123): public IP upsert, then the
verification polling loop.  `vis k` is the visibility of the fresh
resource to the get issued on attempt `k` (the read-after-write window is
an oracle independent of the world flag set by the create). -/
def create_public_ip (vis : Nat → Bool) (w : World) : StepResult :=
  let w1 := { w with ipE := true }
  let p := pollVerify time_is_imported
    "Public IP address MyPublicIP could not be verified after creation." vis
  (w1, PCall.publicIpCreate :: List.replicate p.1 PCall.publicIpGet, p.2)

/-- `create_network_interface` (lines 125-151): one subnet get, one public
IP get, then the NIC upsert; no polling and no read of the NIC.  A failed
get raises ResourceNotFoundError, which the generic handler re-raises. -/
def create_network_interface (w : World) : StepResult :=
  if !w.subnetE then
    (w, [.subnetGet], .error .resourceNotFound)
  else if !w.ipE then
    (w, [.subnetGet, .publicIpGet], .error .resourceNotFound)
  else
    ({ w with nicE := true }, [.subnetGet, .publicIpGet, .nicCreate], .ok ())

/-- `get_available_vm_size` (lines 153-163): the provider size list is
passed in as the list of size names; `return preferred_size` when listed,
else `available_size_names[0] if available_size_names else None`. -/
def get_available_vm_size (available_size_names : List String)
    (preferred_size : String) : Option String :=
  if available_size_names.contains preferred_size then some preferred_size
  else available_size_names.head?

/-- The suffix alphabet of `generate_unique_name`:
`string.ascii_lowercase + string.digits`. -/
def ascii_lowercase : List Char := "abcdefghijklmnopqrstuvwxyz".toList

def string_digits : List Char := "0123456789".toList

def suffix_alphabet : List Char := ascii_lowercase ++ string_digits

/-- The six-character random suffix: `random.choices(population, k=6)`
modelled by six index draws into the 36-character population. -/
def unique_suffix (draws : Fin 6 → Fin 36) : String :=
  String.mk ((List.finRange 6).map fun i =>
    suffix_alphabet.get
      (Fin.cast (by decide : (36 : Nat) = suffix_alphabet.length) (draws i)))

/-- `generate_unique_name` (lines 237-239). -/
def generate_unique_name (base_name : String) (draws : Fin 6 → Fin 36) : String :=
  base_name ++ unique_suffix draws

/-- `create_virtual_machine` (lines 165-234): composes resource group,
network, public IP and NIC steps, lists VM sizes, resolves the size with
preferred size Standard_B1s (raising a plain Exception when none is
available), issues the VM upsert and runs the verification polling loop.
`sizes` is the provider size list, `ipVis` and `vmVis` the visibility
oracles of the two polling loops. -/
def create_virtual_machine (sizes : List String) (ipVis vmVis : Nat → Bool)
    (w : World) : StepResult :=
  match create_resource_group w with
  | (w1, t1, .error e) => (w1, t1, .error e)
  | (w1, t1, .ok _) =>
    match create_virtual_network w1 with
    | (w2, t2, .error e) => (w2, t1 ++ t2, .error e)
    | (w2, t2, .ok _) =>
      match create_public_ip ipVis w2 with
      | (w3, t3, .error e) => (w3, t1 ++ t2 ++ t3, .error e)
      | (w3, t3, .ok _) =>
        match create_network_interface w3 with
        | (w4, t4, .error e) => (w4, t1 ++ t2 ++ t3 ++ t4, .error e)
        | (w4, t4, .ok _) =>
          let t5 := t1 ++ t2 ++ t3 ++ t4 ++ [PCall.vmSizesList]
          match get_available_vm_size sizes "Standard_B1s" with
          | none =>
            (w4, t5, .error (.exc "No available VM sizes found in the specified location."))
          | some _vm_size =>
            let w5 := { w4 with vmE := true }
            let p := pollVerify time_is_imported
              "VM MyVM could not be verified after creation." vmVis
            (w5, t5 ++ [PCall.vmCreate] ++ List.replicate p.1 PCall.vmGet, p.2)

/-- `setup_sql_database` (lines 241-284): generate a unique server name,
server upsert, verification polling loop on the server, then the database
upsert.  `draws` models the random suffix draws, `sqlVis` the visibility
oracle of the polling loop. -/
def setup_sql_database (draws : Fin 6 → Fin 36) (sqlVis : Nat → Bool)
    (w : World) : StepResult :=
  let unique_sql_server_name := generate_unique_name SQL_SERVER_NAME draws
  let w1 := { w with sqlServerE := true }
  let p := pollVerify time_is_imported
    ("SQL Server " ++ unique_sql_server_name ++ " could not be verified after creation.")
    sqlVis
  match p.2 with
  | .ok _ =>
    ({ w1 with sqlDbE := true },
     PCall.sqlServerCreate :: List.replicate p.1 PCall.sqlServerGet ++ [PCall.sqlDbCreate],
     .ok ())
  | .error e =>
    (w1, PCall.sqlServerCreate :: List.replicate p.1 PCall.sqlServerGet, .error e)

/-- `configure_storage_account` (lines 287-310): generate a unique account
name and issue one create.  `createResp` is the provider response; a
ResourceExistsError (name already taken) gets its own handler with a
distinct log line and is re-raised, any other exception goes through the
generic handler and is also re-raised; there is no retry in either case.
Returns world, calls, log lines and outcome. -/
def configure_storage_account (draws : Fin 6 → Fin 36)
    (createResp : Except PyError Unit) (w : World) :
    World × List PCall × List String × Except PyError Unit :=
  let unique_storage_account_name := generate_unique_name STORAGE_ACCOUNT_NAME draws
  match createResp with
  | .ok _ =>
    ({ w with storageE := true }, [.storageCreate],
     ["Configuring storage account...",
      "Storage account " ++ unique_storage_account_name ++ " configured successfully."],
     .ok ())
  | .error .resourceExists =>
    (w, [.storageCreate],
     ["Configuring storage account...", "Storage account name already taken"],
     .error .resourceExists)
  | .error e =>
    (w, [.storageCreate],
     ["Configuring storage account...", "Error configuring storage account"],
     .error e)

/-- `start_vm` (lines 313-322): the start call with provider response
`resp`; ResourceNotFoundError is logged and swallowed, any other exception
is logged and re-raised.  Returns calls, log lines and outcome. -/
def start_vm (resp : Except PyError Unit) :
    List PCall × List String × Except PyError Unit :=
  match resp with
  | .ok _ => ([.vmStart], ["Starting VM MyVM...", "VM MyVM started successfully."], .ok ())
  | .error .resourceNotFound => ([.vmStart], ["Starting VM MyVM...", "VM not found"], .ok ())
  | .error e => ([.vmStart], ["Starting VM MyVM...", "Error starting VM"], .error e)

/-- `stop_vm` (lines 325-334): same handling as `start_vm`. -/
def stop_vm (resp : Except PyError Unit) :
    List PCall × List String × Except PyError Unit :=
  match resp with
  | .ok _ => ([.vmPowerOff], ["Stopping VM MyVM...", "VM MyVM stopped successfully."], .ok ())
  | .error .resourceNotFound => ([.vmPowerOff], ["Stopping VM MyVM...", "VM not found"], .ok ())
  | .error e => ([.vmPowerOff], ["Stopping VM MyVM...", "Error stopping VM"], .error e)

/-- `delete_vm` (lines 337-346): same handling as `start_vm`. -/
def delete_vm (resp : Except PyError Unit) :
    List PCall × List String × Except PyError Unit :=
  match resp with
  | .ok _ => ([.vmDelete], ["Deleting VM MyVM...", "VM MyVM deleted successfully."], .ok ())
  | .error .resourceNotFound => ([.vmDelete], ["Deleting VM MyVM...", "VM not found"], .ok ())
  | .error e => ([.vmDelete], ["Deleting VM MyVM...", "Error deleting VM"], .error e)

/-- The `__main__` block (lines 348-352): `create_resource_group()`,
`create_virtual_machine()` (which itself begins with another
`create_resource_group()` call), `setup_sql_database()`,
`configure_storage_account()`; each unhandled exception stops the run. -/
def main_run (sizes : List String) (ipVis vmVis sqlVis : Nat → Bool)
    (sqlDraws stDraws : Fin 6 → Fin 36) (storageResp : Except PyError Unit)
    (w : World) : StepResult :=
  match create_resource_group w with
  | (w1, t1, .error e) => (w1, t1, .error e)
  | (w1, t1, .ok _) =>
    match create_virtual_machine sizes ipVis vmVis w1 with
    | (w2, t2, .error e) => (w2, t1 ++ t2, .error e)
    | (w2, t2, .ok _) =>
      match setup_sql_database sqlDraws sqlVis w2 with
      | (w3, t3, .error e) => (w3, t1 ++ t2 ++ t3, .error e)
      | (w3, t3, .ok _) =>
        let r := configure_storage_account stDraws storageResp w3
        (r.1, t1 ++ t2 ++ t3 ++ r.2.1, r.2.2.2)

/-- The all-absent happy scenario: every resource starts absent, each
fresh resource is visible to the first verification get, the size list
contains the preferred size, and the storage create succeeds. -/
def scenario_main : StepResult :=
  main_run ["Standard_B1s"] (fun _ => true) (fun _ => true) (fun _ => true)
    (fun _ => 0) (fun _ => 0) (.ok ()) allAbsent

/-- The VM sub-pipeline in the same all-absent happy scenario. -/
def vm_scenario : StepResult :=
  create_virtual_machine ["Standard_B1s"] (fun _ => true) (fun _ => true) allAbsent

/-- The SQL step in the same scenario. -/
def sql_scenario : StepResult :=
  setup_sql_database (fun _ => 0) (fun _ => true) allAbsent

/-- The call sequence the end-to-end scenario of the specification
expects the provider to receive. -/
def claimed_sequence : List PCall :=
  [.groupCreate, .vnetCreate, .subnetCreate, .publicIpCreate, .publicIpGet,
   .nicCreate, .vmSizesList, .vmCreate, .vmGet]

/-- The visibility stub of the specification: not found for the first
N - 1 attempts, found on the Nth. -/
def stubFound (N : Nat) : Nat → Bool := fun i => decide (N ≤ i + 1)

/-- Helper: with the name time unbound, a polling loop whose current
attempt reports not found stops at once with a NameError. -/
theorem pollAux_nameError (timeoutMsg : String) (found : Nat → Bool) (fuel k : Nat)
    (h : found k = false) :
    pollAux false timeoutMsg found (fuel + 1) k = (k + 1, .error (.nameError "time")) := by
  simp [pollAux, h]

/-- Claim C10: the name time is never imported, so in every verification
polling loop a first not-found answer makes the retry path raise a
NameError, and the loop fails after exactly one existence query with no
further poll attempt. -/
theorem c10_poll_raises_name_error (found : Nat → Bool) (h : found 0 = false) :
    module_imports.contains "time" = false ∧
    ∀ timeoutMsg, pollVerify (module_imports.contains "time") timeoutMsg found =
      (1, .error (.nameError "time")) := by
  refine ⟨by decide, fun timeoutMsg => ?_⟩
  have ht : module_imports.contains "time" = false := by decide
  rw [ht]
  show pollAux false timeoutMsg found (9 + 1) 0 = (0 + 1, .error (.nameError "time"))
  exact pollAux_nameError timeoutMsg found 9 0 h

/-- Witness for C10 at the stub that always reports not found. -/
theorem c10_witness :
    module_imports.contains "time" = false ∧
    pollVerify (module_imports.contains "time") "m" (fun _ => false) =
      (1, .error (.nameError "time")) :=
  ⟨(c10_poll_raises_name_error (fun _ => false) rfl).1,
   (c10_poll_raises_name_error (fun _ => false) rfl).2 "m"⟩

/-- Claim C2 (divergence): the intended polling loop (with the time module
bound) succeeds after exactly N queries when the resource becomes visible
on attempt N of at most 10, and times out after exactly 10 queries when it
never does; but the loop as coded (time unbound) raises a NameError after
a single query on the stub that is not found on attempt 1 and found on
attempt 2, instead of succeeding on the second attempt. -/
theorem c2_polling_code_bug :
    ((List.range 10).all fun k =>
      decide (pollVerify true
        "Public IP address MyPublicIP could not be verified after creation."
        (stubFound (k + 1)) = (k + 1, .ok ()))) = true ∧
    pollVerify true "Public IP address MyPublicIP could not be verified after creation."
        (fun _ => false) =
      (10, .error (.exc "Public IP address MyPublicIP could not be verified after creation.")) ∧
    pollVerify time_is_imported
        "Public IP address MyPublicIP could not be verified after creation."
        (stubFound 2) =
      (1, .error (.nameError "time")) := by
  refine ⟨by decide, by decide, by decide⟩

/-- Claim C1 (counterexample): in the all-absent happy run of the VM
pipeline, the subnet create is issued with no prior query of the virtual
network at all, and the VM create is issued with no prior query of the
network interface at all — so those referenced entities are not confirmed
queryable by any polling loop before the dependent create. -/
theorem c1_counterexample :
    vm_scenario.2.1 =
      [PCall.groupCheckExistence, PCall.groupCreate, PCall.vnetCreate,
       PCall.subnetCreate, PCall.publicIpCreate, PCall.publicIpGet,
       PCall.subnetGet, PCall.publicIpGet, PCall.nicCreate, PCall.vmSizesList,
       PCall.vmCreate, PCall.vmGet] ∧
    vm_scenario.2.2 = .ok () ∧
    ((vm_scenario.2.1.takeWhile fun c => c != PCall.subnetCreate).all
      fun c => queryTarget c != some Res.vnet) = true ∧
    ((vm_scenario.2.1.takeWhile fun c => c != PCall.vmCreate).all
      fun c => queryTarget c != some Res.nic) = true := by
  refine ⟨by decide, by decide, by decide, by decide⟩

/-- Claim C1 (amended): only the SQL database has its referenced server
confirmed by a polling loop before the dependent create; the network
interface has its referenced subnet and public IP confirmed by one query
each just before the NIC create (the public IP also by the polling loop of
the public IP step); the subnet and the virtual machine get no independent
query of their referenced virtual network and network interface before the
dependent create — only the blocking completion of the create calls. -/
theorem c1_amended :
    ((vm_scenario.2.1.takeWhile fun c => c != PCall.subnetCreate).all
      fun c => queryTarget c != some Res.vnet) = true ∧
    (vm_scenario.2.1.takeWhile fun c => c != PCall.nicCreate).contains
      PCall.subnetGet = true ∧
    (vm_scenario.2.1.takeWhile fun c => c != PCall.nicCreate).contains
      PCall.publicIpGet = true ∧
    ((vm_scenario.2.1.takeWhile fun c => c != PCall.vmCreate).all
      fun c => queryTarget c != some Res.nic) = true ∧
    sql_scenario.2.1 =
      [PCall.sqlServerCreate, PCall.sqlServerGet, PCall.sqlDbCreate] ∧
    (sql_scenario.2.1.takeWhile fun c => c != PCall.sqlDbCreate).contains
      PCall.sqlServerGet = true := by
  refine ⟨by decide, by decide, by decide, by decide, by decide, by decide⟩

/-- Claim C3: the size selection returns the preferred size when the
provider lists it, else the first listed size, else None; and the VM
pipeline turns the None into the no-capacity failure without issuing a VM
create. -/
theorem c3_select_vm_size (sizes : List String) (preferred_size : String) :
    get_available_vm_size sizes preferred_size =
      (if sizes.contains preferred_size then some preferred_size else sizes.head?) ∧
    get_available_vm_size [] preferred_size = none ∧
    (create_virtual_machine [] (fun _ => true) (fun _ => true) allAbsent).2.2 =
      .error (.exc "No available VM sizes found in the specified location.") ∧
    (create_virtual_machine [] (fun _ => true) (fun _ => true) allAbsent).2.1.count
      PCall.vmCreate = 0 := by
  refine ⟨rfl, rfl, by decide, by decide⟩

/-- Claim C4 (divergence): the startup check never raises — for every
environment value, including the variable being unset, the or-fallback to
the placeholder makes the subscription id non-empty, so the ValueError
branch is dead and the run proceeds to construct the provider clients. -/
theorem c4_subscription_check_dead (env : Option String) :
    startup_config_check env = .ok (subscription_id env) ∧
    subscription_id none = "your_subscription_id" ∧
    startup_config_check none = .ok "your_subscription_id" := by
  refine ⟨?_, rfl, rfl⟩
  cases env with
  | none => rfl
  | some s =>
    by_cases h : s = "" <;> simp [subscription_id, startup_config_check, h]

/-- Claim C5: the resource group step issues zero create calls and
succeeds when the group already exists, and issues exactly one create call
and succeeds when it is absent. -/
theorem c5_resource_group (w : World) :
    (create_resource_group w).2.1 =
      (if w.groupE then [PCall.groupCheckExistence]
       else [PCall.groupCheckExistence, PCall.groupCreate]) ∧
    (create_resource_group w).2.2 = .ok () ∧
    List.count PCall.groupCreate [PCall.groupCheckExistence] = 0 ∧
    List.count PCall.groupCreate [PCall.groupCheckExistence, PCall.groupCreate] = 1 := by
  refine ⟨?_, ?_, by decide, by decide⟩ <;>
    cases hw : w.groupE <;> simp [create_resource_group, hw]

/-- Claim C6: start, stop and delete complete without raising when the
provider reports the VM not found, logging the not-found condition, and
re-raise every other provider failure. -/
theorem c6_lifecycle (e : PyError) :
    (start_vm (.error PyError.resourceNotFound)).2.2 = .ok () ∧
    (stop_vm (.error PyError.resourceNotFound)).2.2 = .ok () ∧
    (delete_vm (.error PyError.resourceNotFound)).2.2 = .ok () ∧
    "VM not found" ∈ (start_vm (.error PyError.resourceNotFound)).2.1 ∧
    "VM not found" ∈ (stop_vm (.error PyError.resourceNotFound)).2.1 ∧
    "VM not found" ∈ (delete_vm (.error PyError.resourceNotFound)).2.1 ∧
    ((start_vm (.error e)).2.2 =
      if e = PyError.resourceNotFound then .ok () else .error e) ∧
    ((stop_vm (.error e)).2.2 =
      if e = PyError.resourceNotFound then .ok () else .error e) ∧
    ((delete_vm (.error e)).2.2 =
      if e = PyError.resourceNotFound then .ok () else .error e) := by
  refine ⟨by decide, by decide, by decide, by decide, by decide, by decide, ?_, ?_, ?_⟩ <;>
    cases e <;> simp [start_vm, stop_vm, delete_vm]

/-- Claim C7: a name-already-taken response to the storage account create
is handled by its own handler: exactly one create is issued (no
rename-and-retry), the distinct collision line is logged rather than the
generic fault line, and the error is re-raised as fatal. -/
theorem c7_storage_name_collision :
    (configure_storage_account (fun _ => 0) (.error PyError.resourceExists)
      allAbsent).2.1.count PCall.storageCreate = 1 ∧
    (configure_storage_account (fun _ => 0) (.error PyError.resourceExists)
      allAbsent).2.2.2 = .error PyError.resourceExists ∧
    "Storage account name already taken" ∈
      (configure_storage_account (fun _ => 0) (.error PyError.resourceExists)
        allAbsent).2.2.1 ∧
    "Error configuring storage account" ∉
      (configure_storage_account (fun _ => 0) (.error PyError.resourceExists)
        allAbsent).2.2.1 := by
  refine ⟨by decide, by decide, by decide, by decide⟩

/-- Claim C8 (counterexample): the all-absent happy run of the top-level
entry sends the provider a call sequence different from the one the
specification lists, although the run does succeed. -/
theorem c8_counterexample :
    scenario_main.2.1 ≠ claimed_sequence ∧ scenario_main.2.2 = .ok () := by
  refine ⟨by decide, by decide⟩

/-- Claim C8 (amended): the run succeeds and the provider receives the
claimed nine calls in the claimed order, but interleaved with further
calls — the group existence checks, the repeated group ensure from the VM
pipeline, the subnet and public IP reads before the NIC create, and the
SQL and storage steps at the end — giving the seventeen-call sequence
below. -/
theorem c8_amended :
    scenario_main.2.1 =
      [PCall.groupCheckExistence, PCall.groupCreate, PCall.groupCheckExistence,
       PCall.vnetCreate, PCall.subnetCreate, PCall.publicIpCreate,
       PCall.publicIpGet, PCall.subnetGet, PCall.publicIpGet, PCall.nicCreate,
       PCall.vmSizesList, PCall.vmCreate, PCall.vmGet, PCall.sqlServerCreate,
       PCall.sqlServerGet, PCall.sqlDbCreate, PCall.storageCreate] ∧
    List.Sublist claimed_sequence scenario_main.2.1 ∧
    scenario_main.2.2 = .ok () := by
  refine ⟨by decide, by decide, by decide⟩

/-- Claim C9: every generated name is the base name followed by a
six-character suffix drawn from the lowercase-and-digits alphabet, and
distinct calls can produce the same name, so no hard uniqueness holds. -/
theorem c9_generate_unique_name (base_name : String) (draws : Fin 6 → Fin 36) :
    generate_unique_name base_name draws = base_name ++ unique_suffix draws ∧
    (unique_suffix draws).length = 6 ∧
    (∀ c ∈ (unique_suffix draws).toList, c ∈ suffix_alphabet) ∧
    ∃ d1 d2 : Fin 6 → Fin 36,
      generate_unique_name base_name d1 = generate_unique_name base_name d2 := by
  refine ⟨rfl, rfl, ?_, ⟨fun _ => 0, fun _ => 0, rfl⟩⟩
  intro c hc
  obtain ⟨i, hi, h⟩ := List.mem_map.mp hc
  exact h ▸ List.get_mem _ _ _

/-- Witness for C9 at the base name myserver and the constant draw 0. -/
theorem c9_witness :
    generate_unique_name "myserver" (fun _ => (0 : Fin 36)) =
      "myserver" ++ unique_suffix (fun _ => (0 : Fin 36)) ∧
    'a' ∈ suffix_alphabet :=
  ⟨(c9_generate_unique_name "myserver" (fun _ => 0)).1,
   (c9_generate_unique_name "myserver" (fun _ => 0)).2.2.1 'a' (by decide)⟩
